import Mathlib

/-!
Shallow embedding of the `circuitbreaker` Go package (haseth/spark).

The embedding follows `circuitBreaker.go` line by line:

* `State`, `CircuitCounters`, `CircuitBreaker` mirror the Go types.
  Counter fields are `Nat` (Go `int64` tallies that are only ever
  incremented starting from zero and reset to zero; overflow is
  unreachable for any trace the theorems quantify over).
* Go `time.Time` / `time.Duration` are modelled as `Nat` nanosecond
  timestamps; `t1.Add(d).Before(t2)` becomes `t1 + d < t2` (strict, as
  `time.Time.Before` is strict).  `time.Now()` becomes an explicit `now`
  parameter threaded through each call.
* The Go default predicates compare `float64` ratios; they are embedded
  with exact rational arithmetic (`ℚ`), which agrees with the `float64`
  computation on all counter values small enough to be represented
  exactly.
* The Go `error` interface is modelled by an error type parameter `ε`;
  `request` returning `(interface\x7b\x7d, error)` is modelled by
  `CallResult α ε`: a normal return carries the value and an optional
  error (`none` = Go `nil` error), and `panics` models an uncaught panic
  raised by the request.  The package sentinel `errOpen` is represented
  structurally by the `SparkResult.rejected` constructor, so a rejection
  is distinguishable from any error value returned by the work function.
* Crucially, in the Go source of `Spark` the `defer`/`recover` block is
  registered only AFTER `req, err := request()` has returned, so a panic
  raised inside `request` unwinds `Spark` before any deferred function
  is installed: no `onFail` bookkeeping runs.  The embedding is faithful
  to this: the `panics` branch of `Spark` performs no counter update.
-/

set_option autoImplicit false

namespace Circuitbreaker

/-- Go: `type State int` with `stateClose = 0`, `stateOpen = 1`,
`stateHalfOpen = 2`. -/
inductive State where
  | stateClose : State
  | stateOpen : State
  | stateHalfOpen : State
deriving DecidableEq, Repr

/-- Go: `CircuitCounters` struct with the four `int64` counter fields. -/
structure CircuitCounters where
  Failure : Nat
  Success : Nat
  Timeout : Nat
  Rejection : Nat
deriving DecidableEq, Repr

/-- Go: the `CircuitBreaker` struct.  The `sync.Mutex` field is dropped:
the embedding is of the sequential (linearised) behaviour, each
operation running atomically under the breaker lock as in the source. -/
structure CircuitBreaker where
  circuitName : String
  currentState : State
  currentTime : Nat
  counters : CircuitCounters
  tripCircuit : CircuitCounters → Bool
  untripCircuit : CircuitCounters → Bool
  openTime : Nat

/-- Go `time.Second` in nanoseconds. -/
def timeSecond : Nat := 1000000000

/-- The trip closure installed by `NewDefaultCircuitBreaker`:
`(fail+success > 0) && fail/(fail+success) >= 0.50`, embedded over
`ℚ`. -/
def defaultTripCircuit (counter : CircuitCounters) : Bool :=
  let fail : ℚ := (counter.Failure : ℚ)
  let success : ℚ := (counter.Success : ℚ)
  if fail + success > 0 ∧ fail / (fail + success) ≥ 1/2 then true else false

/-- The untrip closure installed by `NewDefaultCircuitBreaker`:
`(fail+success > 0) && success/(fail+success) >= 0.50`, embedded over
`ℚ`. -/
def defaultUntripCircuit (counter : CircuitCounters) : Bool :=
  let fail : ℚ := (counter.Failure : ℚ)
  let success : ℚ := (counter.Success : ℚ)
  if fail + success > 0 ∧ success / (fail + success) ≥ 1/2 then true else false

/-- Go: `NewDefaultCircuitBreaker`.  `now` stands for the `time.Now()`
call in the constructor. -/
def NewDefaultCircuitBreaker (now : Nat) : CircuitBreaker where
  circuitName := "Service-B Proxy"
  currentState := State.stateClose
  currentTime := now
  counters := ⟨0, 0, 0, 0⟩
  tripCircuit := defaultTripCircuit
  untripCircuit := defaultUntripCircuit
  openTime := 1 * timeSecond

/-- Go: `NewCircuitBreaker(circuitName, tripFunc, untripFunc, openT)`;
`openT` is a number of seconds, `now` stands for `time.Now()`. -/
def NewCircuitBreaker (circuitName : String)
    (tripFunc untripFunc : CircuitCounters → Bool) (openT : Nat)
    (now : Nat) : CircuitBreaker where
  circuitName := circuitName
  currentState := State.stateClose
  currentTime := now
  counters := ⟨0, 0, 0, 0⟩
  tripCircuit := tripFunc
  untripCircuit := untripFunc
  openTime := openT * timeSecond

/-- Go: `ResetCounters` sets all four counters to zero. -/
def ResetCounters (cb : CircuitBreaker) : CircuitBreaker :=
  { cb with counters := ⟨0, 0, 0, 0⟩ }

/-- Go: `updateState`.  Switch on the current state:
close: trip check; half-open: failure check THEN (not else) untrip
check on the possibly already reset counters; open: strict
`currentTime.Add(openTime).Before(now)` check. -/
def updateState (now : Nat) (cb : CircuitBreaker) : CircuitBreaker :=
  match cb.currentState with
  | State.stateClose =>
      if cb.tripCircuit cb.counters then
        ResetCounters { cb with
          currentState := State.stateOpen, currentTime := now }
      else cb
  | State.stateHalfOpen =>
      let cb1 :=
        if cb.counters.Failure > 0 then
          ResetCounters { cb with
            currentState := State.stateOpen, currentTime := now }
        else cb
      if cb1.untripCircuit cb1.counters then
        ResetCounters { cb1 with
          currentState := State.stateClose, currentTime := now }
      else cb1
  | State.stateOpen =>
      if cb.currentTime + cb.openTime < now then
        ResetCounters { cb with
          currentState := State.stateHalfOpen, currentTime := now }
      else cb

/-- Go: `isOpen` runs `updateState` under the lock and reports whether
the resulting state is open.  The updated breaker is returned explicitly
(Go mutates in place). -/
def isOpen (now : Nat) (cb : CircuitBreaker) : Bool × CircuitBreaker :=
  let cb1 := updateState now cb
  (decide (cb1.currentState = State.stateOpen), cb1)

/-- Go: `onFail` increments the failure counter and runs `updateState`. -/
def onFail (now : Nat) (cb : CircuitBreaker) : CircuitBreaker :=
  updateState now
    { cb with counters :=
        { cb.counters with Failure := cb.counters.Failure + 1 } }

/-- Go: `onSuccess` increments the success counter and runs
`updateState`. -/
def onSuccess (now : Nat) (cb : CircuitBreaker) : CircuitBreaker :=
  updateState now
    { cb with counters :=
        { cb.counters with Success := cb.counters.Success + 1 } }

/-- Outcome of invoking the wrapped `request`: a normal Go return
`(value, err)` with `err = none` standing for a `nil` error, or an
uncaught panic carrying its payload. -/
inductive CallResult (α ε : Type) where
  | ret : α → Option ε → CallResult α ε
  | panics : String → CallResult α ε
deriving DecidableEq, Repr

/-- Observable result of `Spark`: the rejection sentinel (`errOpen` in
Go, structurally distinct from any returned error), a normal return
`(req, err)`, or a propagated panic. -/
inductive SparkResult (α ε : Type) where
  | rejected : SparkResult α ε
  | returned : α → Option ε → SparkResult α ε
  | panicked : String → SparkResult α ε
deriving DecidableEq, Repr

/-- Go: `Spark`.  If `isOpen` reports open, return `(nil, errOpen)`
without touching the counters.  Otherwise run the request.  In the Go
source the `defer`/`recover` block is registered only after `request()`
has returned, so a panic raised by `request` propagates without any
bookkeeping; the `panics` branch therefore leaves the breaker exactly
as `isOpen` left it.  On a non-nil error the failure is recorded and
`(req, err)` returned verbatim; on a nil error the success is
recorded. -/
def Spark {α ε : Type} (now : Nat) (cb : CircuitBreaker)
    (request : CallResult α ε) : SparkResult α ε × CircuitBreaker :=
  let res := isOpen now cb
  if res.1 then
    (SparkResult.rejected, res.2)
  else
    match request with
    | CallResult.panics msg => (SparkResult.panicked msg, res.2)
    | CallResult.ret req (some e) =>
        (SparkResult.returned req (some e), onFail now res.2)
    | CallResult.ret req none =>
        (SparkResult.returned req none, onSuccess now res.2)

/-- An externally visible operation on a breaker: a `Spark` call at a
given time with a given request outcome, or a manual `ResetCounters`
call. -/
inductive SparkOp (α ε : Type) where
  | sparkCall : Nat → CallResult α ε → SparkOp α ε
  | resetCall : SparkOp α ε
deriving Repr

/-- Run a sequence of breaker operations, threading the breaker state. -/
def runOps {α ε : Type} : CircuitBreaker → List (SparkOp α ε) → CircuitBreaker
  | cb, [] => cb
  | cb, SparkOp.sparkCall now request :: rest => runOps (Spark now cb request).2 rest
  | cb, SparkOp.resetCall :: rest => runOps (ResetCounters cb) rest

/-- Concrete fixture: the default breaker after one failing call at time
0.  The failure trips the default predicate (ratio 1/1 ≥ 0.5), so this
breaker is Open with `currentTime = 0` and cleared counters. -/
def cbAfterTrip : CircuitBreaker :=
  (Spark 0 (NewDefaultCircuitBreaker 0)
    (CallResult.ret (ε := String) () (some "e"))).2

/-- A predicate that is true on every counters snapshot (legitimate
argument to `NewCircuitBreaker`). -/
def alwaysTrip : CircuitCounters → Bool := fun _ => true

/-- Concrete fixture: a custom breaker whose trip and untrip predicates
are both always true. -/
def cbGreedy : CircuitBreaker := NewCircuitBreaker "greedy" alwaysTrip alwaysTrip 1 0

/-- Concrete fixture: `cbGreedy` after its first call at time 0.  On
entry `updateState` trips the always-true predicate, so the call is
rejected and the breaker is Open with `currentTime = 0`. -/
def cbGreedyOpen : CircuitBreaker :=
  (Spark 0 cbGreedy (CallResult.ret (ε := String) () none)).2

/-- Concrete fixture: the default breaker moved to the Open state (as it
is after tripping; compare `cbAfterTrip`, which reaches Open through the
public interface). -/
def cbOpenDefault : CircuitBreaker :=
  { NewDefaultCircuitBreaker 0 with currentState := State.stateOpen }

/-- Concrete fixture: the default breaker in the HalfOpen state with
cleared counters, as it is right after the Open to HalfOpen
transition. -/
def cbHalfOpenDefault : CircuitBreaker :=
  { NewDefaultCircuitBreaker 0 with currentState := State.stateHalfOpen }

/-- Concrete fixture: the default breaker in the HalfOpen state with one
recorded failure. -/
def cbHalfOpenFailed : CircuitBreaker :=
  { NewDefaultCircuitBreaker 0 with
      currentState := State.stateHalfOpen, counters := ⟨1, 0, 0, 0⟩ }

/-- Concrete fixture: the default breaker, Closed, with three recorded
successes. -/
def cbSuccessThree : CircuitBreaker :=
  { NewDefaultCircuitBreaker 0 with counters := ⟨0, 3, 0, 0⟩ }

/-!  Characterisations of the default rational-ratio predicates over the
natural-number counters. -/

lemma ratio_ge_half_iff (a b : Nat) (h : 0 < a + b) :
    ((a : ℚ) / ((a : ℚ) + (b : ℚ)) ≥ 1/2) ↔ b ≤ a := by
  have hpos : (0 : ℚ) < (a : ℚ) + (b : ℚ) := by exact_mod_cast h
  rw [ge_iff_le, le_div_iff₀ hpos]
  constructor
  · intro hle
    have hq : (b : ℚ) ≤ (a : ℚ) := by linarith
    exact_mod_cast hq
  · intro hle
    have hq : (b : ℚ) ≤ (a : ℚ) := by exact_mod_cast hle
    linarith

lemma defaultTripCircuit_iff (c : CircuitCounters) :
    defaultTripCircuit c = true ↔
      0 < c.Failure + c.Success ∧ c.Success ≤ c.Failure := by
  by_cases hP : ((c.Failure : ℚ) + (c.Success : ℚ) > 0 ∧
      (c.Failure : ℚ) / ((c.Failure : ℚ) + (c.Success : ℚ)) ≥ 1/2)
  · have hn : 0 < c.Failure + c.Success := by exact_mod_cast hP.1
    simp only [defaultTripCircuit, if_pos hP]
    exact iff_of_true trivial ⟨hn, (ratio_ge_half_iff _ _ hn).mp hP.2⟩
  · simp only [defaultTripCircuit, if_neg hP]
    constructor
    · intro h
      exact absurd h (by simp)
    · intro ⟨h1, h2⟩
      exact absurd ⟨by exact_mod_cast h1, (ratio_ge_half_iff _ _ h1).mpr h2⟩ hP

lemma defaultTripCircuit_eq_decide (c : CircuitCounters) :
    defaultTripCircuit c
      = decide (0 < c.Failure + c.Success ∧ c.Success ≤ c.Failure) := by
  by_cases h : 0 < c.Failure + c.Success ∧ c.Success ≤ c.Failure
  · simp [h, (defaultTripCircuit_iff c).mpr h]
  · have hb : defaultTripCircuit c = false := by
      rcases hb : defaultTripCircuit c with _ | _
      · rfl
      · exact absurd ((defaultTripCircuit_iff c).mp hb) h
    rw [hb]
    symm
    rw [decide_eq_false_iff_not]
    exact h

lemma defaultUntripCircuit_iff (c : CircuitCounters) :
    defaultUntripCircuit c = true ↔
      0 < c.Failure + c.Success ∧ c.Failure ≤ c.Success := by
  by_cases hP : ((c.Failure : ℚ) + (c.Success : ℚ) > 0 ∧
      (c.Success : ℚ) / ((c.Failure : ℚ) + (c.Success : ℚ)) ≥ 1/2)
  · have hn : 0 < c.Failure + c.Success := by exact_mod_cast hP.1
    have hn2 : 0 < c.Success + c.Failure := by omega
    have hP2 : (c.Success : ℚ) / ((c.Success : ℚ) + (c.Failure : ℚ)) ≥ 1/2 := by
      rw [add_comm ((c.Success : ℚ))]
      exact hP.2
    simp only [defaultUntripCircuit, if_pos hP]
    exact iff_of_true trivial ⟨hn, (ratio_ge_half_iff _ _ hn2).mp hP2⟩
  · simp only [defaultUntripCircuit, if_neg hP]
    constructor
    · intro h
      exact absurd h (by simp)
    · intro ⟨h1, h2⟩
      have hn2 : 0 < c.Success + c.Failure := by omega
      have hr : (c.Success : ℚ) / ((c.Failure : ℚ) + (c.Success : ℚ)) ≥ 1/2 := by
        rw [add_comm ((c.Failure : ℚ))]
        exact (ratio_ge_half_iff _ _ hn2).mpr h2
      exact absurd ⟨by exact_mod_cast h1, hr⟩ hP

lemma defaultUntripCircuit_eq_decide (c : CircuitCounters) :
    defaultUntripCircuit c
      = decide (0 < c.Failure + c.Success ∧ c.Failure ≤ c.Success) := by
  by_cases h : 0 < c.Failure + c.Success ∧ c.Failure ≤ c.Success
  · simp [h, (defaultUntripCircuit_iff c).mpr h]
  · have hb : defaultUntripCircuit c = false := by
      rcases hb : defaultUntripCircuit c with _ | _
      · rfl
      · exact absurd ((defaultUntripCircuit_iff c).mp hb) h
    rw [hb]
    symm
    rw [decide_eq_false_iff_not]
    exact h

/-!  Helper lemmas about the Timeout and Rejection counters, used for
claim C10. -/

lemma updateState_tr (now : Nat) (cb : CircuitBreaker)
    (h : cb.counters.Timeout = 0 ∧ cb.counters.Rejection = 0) :
    (updateState now cb).counters.Timeout = 0 ∧
    (updateState now cb).counters.Rejection = 0 := by
  rcases hcs : cb.currentState with _ | _ | _ <;>
    simp only [updateState, hcs]
  · split
    · simp [ResetCounters]
    · exact h
  · split
    · simp [ResetCounters]
    · exact h
  · split
    · split <;> simp [ResetCounters]
    · split
      · simp [ResetCounters]
      · exact h

lemma spark_tr {α ε : Type} (now : Nat) (cb : CircuitBreaker)
    (request : CallResult α ε)
    (h : cb.counters.Timeout = 0 ∧ cb.counters.Rejection = 0) :
    (Spark now cb request).2.counters.Timeout = 0 ∧
    (Spark now cb request).2.counters.Rejection = 0 := by
  have h1 := updateState_tr now cb h
  by_cases hop : (updateState now cb).currentState = State.stateOpen
  · simp [Spark, isOpen, hop]
    exact h1
  · rcases request with ⟨a, _ | e⟩ | msg
    · simp [Spark, isOpen, hop, onSuccess]
      exact updateState_tr _ _ (by simp [h1.1, h1.2])
    · simp [Spark, isOpen, hop, onFail]
      exact updateState_tr _ _ (by simp [h1.1, h1.2])
    · simp [Spark, isOpen, hop]
      exact h1

lemma runOps_tr {α ε : Type} (ops : List (SparkOp α ε)) (cb : CircuitBreaker)
    (h : cb.counters.Timeout = 0 ∧ cb.counters.Rejection = 0) :
    (runOps cb ops).counters.Timeout = 0 ∧
    (runOps cb ops).counters.Rejection = 0 := by
  induction ops generalizing cb with
  | nil => exact h
  | cons op rest ih =>
    rcases op with ⟨now, request⟩ | _
    · exact ih _ (spark_tr now cb request h)
    · exact ih _ (by simp [ResetCounters])

/-!  Claim theorems. -/

/-- C1: the claim states that a wrapped call terminating with an
uncaught panic first has a failure recorded in the breaker counters and
only then propagates the panic.  The code does NOT do this: in `Spark`
the `defer`/`recover` block that would call `onFail` is registered only
after `request()` has already returned, so a panic raised inside the
request unwinds `Spark` before any deferred handler exists.  Evaluated
at the failing input (fresh default breaker, panicking request): the
panic propagates and the breaker is returned completely unchanged, its
Failure counter still zero — no failure is recorded. -/
theorem c1_panic_skips_bookkeeping :
    Spark 0 (NewDefaultCircuitBreaker 0)
      (CallResult.panics (α := Unit) (ε := String) "boom")
      = (SparkResult.panicked "boom", NewDefaultCircuitBreaker 0) := by
  simp [Spark, isOpen, updateState, NewDefaultCircuitBreaker, ResetCounters,
    defaultTripCircuit_eq_decide]

/-- C2 counterexample: the claim states that with default settings a
single successful probe in HalfOpen leaves the breaker in HalfOpen.  In
fact, on the breaker obtained by tripping the default breaker at time 0,
the call at time 2s enters as a HalfOpen probe (second conjunct) and its
single success already moves the breaker to Closed (third conjunct),
because the default untrip closure fires at success ratio 1/1 ≥ 0.5. -/
theorem c2_counterexample :
    cbAfterTrip.currentState = State.stateOpen ∧
    (updateState (2 * timeSecond) cbAfterTrip).currentState = State.stateHalfOpen ∧
    (Spark (2 * timeSecond) cbAfterTrip
      (CallResult.ret (ε := String) () none)).2.currentState = State.stateClose := by
  refine ⟨?_, ?_, ?_⟩ <;>
    simp [cbAfterTrip, Spark, isOpen, updateState, onFail, onSuccess,
      NewDefaultCircuitBreaker, ResetCounters, timeSecond,
      defaultTripCircuit_eq_decide, defaultUntripCircuit_eq_decide]

/-- C2 (amended): with the default untrip predicate the breaker untrips
as soon as at least one outcome is recorded with success ratio ≥ 0.5: in
HalfOpen with cleared counters a single successful probe transitions the
breaker to Closed (and clears the counters). -/
theorem c2_amended {α ε : Type} (cb : CircuitBreaker) (now : Nat) (a : α)
    (hs : cb.currentState = State.stateHalfOpen)
    (hc : cb.counters = ⟨0, 0, 0, 0⟩)
    (hu : cb.untripCircuit = defaultUntripCircuit) :
    (Spark now cb (CallResult.ret (ε := ε) a none)).2.currentState = State.stateClose ∧
    (Spark now cb (CallResult.ret (ε := ε) a none)).2.counters = ⟨0, 0, 0, 0⟩ := by
  have hup : updateState now cb = cb := by
    simp [updateState, hs, hc, hu, defaultUntripCircuit_eq_decide]
  constructor <;>
    simp [Spark, isOpen, hup, hs, onSuccess, updateState, hc, hu,
      defaultUntripCircuit_eq_decide, ResetCounters]

/-- Witness for `c2_amended` at the concrete HalfOpen default breaker. -/
theorem c2_amended_witness :
    cbHalfOpenDefault.currentState = State.stateHalfOpen ∧
    cbHalfOpenDefault.counters = ⟨0, 0, 0, 0⟩ ∧
    cbHalfOpenDefault.untripCircuit = defaultUntripCircuit ∧
    ((Spark 5 cbHalfOpenDefault (CallResult.ret (ε := String) () none)).2.currentState
        = State.stateClose ∧
     (Spark 5 cbHalfOpenDefault (CallResult.ret (ε := String) () none)).2.counters
        = ⟨0, 0, 0, 0⟩) :=
  ⟨rfl, rfl, rfl, c2_amended cbHalfOpenDefault 5 () rfl rfl rfl⟩

/-- C3: while the breaker is Open and the cooldown has not yet elapsed
(`now < currentTime + openTime`), `Spark` returns the rejection sentinel
(structurally distinct from every `returned` result carrying an error of
the work function), the breaker is returned entirely unchanged (no
counter is mutated), and the result does not depend on the request — the
wrapped function is never invoked. -/
theorem c3_open_rejects_without_mutation {α ε : Type} (cb : CircuitBreaker)
    (now : Nat) (request : CallResult α ε)
    (hs : cb.currentState = State.stateOpen)
    (ht : now < cb.currentTime + cb.openTime) :
    Spark now cb request = (SparkResult.rejected, cb) := by
  have hnot : ¬ (cb.currentTime + cb.openTime < now) := by omega
  have hup : updateState now cb = cb := by
    simp only [updateState, hs, if_neg hnot]
  simp [Spark, isOpen, hup, hs]

/-- Witness for `c3_open_rejects_without_mutation` at the concrete Open
default breaker and time 0. -/
theorem c3_witness :
    cbOpenDefault.currentState = State.stateOpen ∧
    (0 : Nat) < cbOpenDefault.currentTime + cbOpenDefault.openTime ∧
    Spark 0 cbOpenDefault (CallResult.ret (ε := String) () none)
      = (SparkResult.rejected, cbOpenDefault) :=
  ⟨rfl, by decide,
    c3_open_rejects_without_mutation cbOpenDefault 0
      (CallResult.ret (ε := String) () none) rfl (by decide)⟩

/-- C4: when a call arrives while the breaker is Open and the cooldown
condition of the code holds (`currentTime + openTime < now`), the
Open-to-HalfOpen transition (timestamp recorded, counters cleared) is
performed by the pre-call `updateState`, before the admission decision,
and that same call is allowed through to the wrapped function as the
first probe (its result reflects the work outcome instead of being
rejected). -/
theorem c4_transition_precedes_admission {α ε : Type} (cb : CircuitBreaker)
    (now : Nat) (a : α) (oerr : Option ε)
    (hs : cb.currentState = State.stateOpen)
    (ht : cb.currentTime + cb.openTime < now) :
    (updateState now cb).currentState = State.stateHalfOpen ∧
    (updateState now cb).currentTime = now ∧
    (updateState now cb).counters = ⟨0, 0, 0, 0⟩ ∧
    (Spark now cb (CallResult.ret a oerr)).1 = SparkResult.returned a oerr := by
  have hup : updateState now cb = ResetCounters { cb with
      currentState := State.stateHalfOpen, currentTime := now } := by
    simp only [updateState, hs, if_pos ht]
  refine ⟨by rw [hup]; rfl, by rw [hup]; rfl, by rw [hup]; rfl, ?_⟩
  rcases oerr with _ | e <;> simp [Spark, isOpen, hup, ResetCounters]

/-- Witness for `c4_transition_precedes_admission` at the concrete Open
default breaker and time 2s. -/
theorem c4_witness :
    cbOpenDefault.currentState = State.stateOpen ∧
    cbOpenDefault.currentTime + cbOpenDefault.openTime < 2 * timeSecond ∧
    ((updateState (2 * timeSecond) cbOpenDefault).currentState = State.stateHalfOpen ∧
     (updateState (2 * timeSecond) cbOpenDefault).currentTime = 2 * timeSecond ∧
     (updateState (2 * timeSecond) cbOpenDefault).counters = ⟨0, 0, 0, 0⟩ ∧
     (Spark (2 * timeSecond) cbOpenDefault
        (CallResult.ret (ε := String) () none)).1 = SparkResult.returned () none) :=
  ⟨rfl, by decide,
    c4_transition_precedes_admission cbOpenDefault (2 * timeSecond) () none
      rfl (by decide)⟩

/-- C5 counterexample: the claim states that the Open-to-HalfOpen
transition fires exactly at `stateEnteredAt + cooldown`, so a call
arriving at that instant should be let through as a probe.  On the
breaker obtained by tripping the default breaker at time 0 (so
`currentTime = 0`, `openTime = 1s`), the call arriving exactly at
`0 + 1s` is rejected and the breaker stays Open, because the code uses
the strict comparison `currentTime.Add(openTime).Before(now)`. -/
theorem c5_counterexample :
    cbAfterTrip.currentState = State.stateOpen ∧
    cbAfterTrip.currentTime = 0 ∧
    cbAfterTrip.openTime = 1 * timeSecond ∧
    (Spark (0 + 1 * timeSecond) cbAfterTrip
      (CallResult.ret (ε := String) () none)).1 = SparkResult.rejected ∧
    (Spark (0 + 1 * timeSecond) cbAfterTrip
      (CallResult.ret (ε := String) () none)).2.currentState = State.stateOpen := by
  refine ⟨?_, ?_, ?_, ?_, ?_⟩ <;>
    simp [cbAfterTrip, Spark, isOpen, updateState, onFail, onSuccess,
      NewDefaultCircuitBreaker, ResetCounters, timeSecond,
      defaultTripCircuit_eq_decide, defaultUntripCircuit_eq_decide]

/-- C5 (amended): the Open-to-HalfOpen transition fires strictly after
`stateEnteredAt + cooldown`: every call arriving at
`now ≤ currentTime + openTime` (including exactly at the boundary) is
rejected with the breaker unchanged, and every call arriving strictly
after transitions to HalfOpen and is passed through to the wrapped
function. -/
theorem c5_amended {α ε : Type} (cb : CircuitBreaker) (now : Nat)
    (request : CallResult α ε) (a : α) (oerr : Option ε)
    (hs : cb.currentState = State.stateOpen) :
    (now ≤ cb.currentTime + cb.openTime →
      Spark now cb request = (SparkResult.rejected, cb)) ∧
    (cb.currentTime + cb.openTime < now →
      (updateState now cb).currentState = State.stateHalfOpen ∧
      (Spark now cb (CallResult.ret a oerr)).1 = SparkResult.returned a oerr) := by
  constructor
  · intro hle
    have hnot : ¬ (cb.currentTime + cb.openTime < now) := by omega
    have hup : updateState now cb = cb := by
      simp only [updateState, hs, if_neg hnot]
    simp [Spark, isOpen, hup, hs]
  · intro hlt
    have hup : updateState now cb = ResetCounters { cb with
        currentState := State.stateHalfOpen, currentTime := now } := by
      simp only [updateState, hs, if_pos hlt]
    refine ⟨by rw [hup]; rfl, ?_⟩
    rcases oerr with _ | e <;> simp [Spark, isOpen, hup, ResetCounters]

/-- Witness for `c5_amended` at the concrete Open default breaker and
the exact boundary instant `currentTime + openTime = 1s`. -/
theorem c5_amended_witness :
    cbOpenDefault.currentState = State.stateOpen ∧
    ((1 * timeSecond ≤ cbOpenDefault.currentTime + cbOpenDefault.openTime →
       Spark (1 * timeSecond) cbOpenDefault (CallResult.ret (ε := String) () none)
         = (SparkResult.rejected, cbOpenDefault)) ∧
     (cbOpenDefault.currentTime + cbOpenDefault.openTime < 1 * timeSecond →
       (updateState (1 * timeSecond) cbOpenDefault).currentState = State.stateHalfOpen ∧
       (Spark (1 * timeSecond) cbOpenDefault
          (CallResult.ret (ε := String) () none)).1 = SparkResult.returned () none)) :=
  ⟨rfl, c5_amended cbOpenDefault (1 * timeSecond)
    (CallResult.ret (ε := String) () none) () none rfl⟩

/-- C6 counterexample: the claim states that for every untrip predicate
a probe outcome in HalfOpen with failure count greater than zero leaves
the breaker Open, never Closed.  With an untrip predicate that is true
on every snapshot (legitimately injected through `NewCircuitBreaker`),
the breaker `cbGreedyOpen` enters HalfOpen for the call at time 2s
(second conjunct), the probe fails — yet the breaker ends up Closed
(third conjunct): `updateState` first moves HalfOpen to Open and resets
the counters, then the un-guarded second `if` evaluates the untrip
predicate on the freshly cleared counters and moves on to Closed. -/
theorem c6_counterexample :
    cbGreedyOpen.currentState = State.stateOpen ∧
    (updateState (2 * timeSecond) cbGreedyOpen).currentState = State.stateHalfOpen ∧
    (Spark (2 * timeSecond) cbGreedyOpen
      (CallResult.ret (ε := String) () (some "e"))).2.currentState
      = State.stateClose := by
  refine ⟨?_, ?_, ?_⟩ <;>
    simp [cbGreedyOpen, cbGreedy, Spark, isOpen, updateState, onFail, onSuccess,
      NewCircuitBreaker, ResetCounters, timeSecond, alwaysTrip]

/-- C6 (amended): in HalfOpen, after an outcome with failure counter
greater than zero, the breaker transitions to Open, recording the
timestamp and clearing the counters — and then the untrip predicate is
still evaluated, on the freshly cleared counters: the breaker stays Open
exactly when the untrip predicate is false on the all-zero snapshot (as
the default untrip predicate is), and moves on to Closed when the
untrip predicate is true on the all-zero snapshot. -/
theorem c6_amended (cb : CircuitBreaker) (now : Nat)
    (hs : cb.currentState = State.stateHalfOpen)
    (hf : cb.counters.Failure > 0) :
    (updateState now cb).counters = ⟨0, 0, 0, 0⟩ ∧
    (updateState now cb).currentTime = now ∧
    (updateState now cb).currentState
      = (if cb.untripCircuit ⟨0, 0, 0, 0⟩ then State.stateClose else State.stateOpen) := by
  by_cases hu : cb.untripCircuit ⟨0, 0, 0, 0⟩ <;>
    simp [updateState, hs, hf, hu, ResetCounters]

/-- Witness for `c6_amended` at the concrete HalfOpen default breaker
with one recorded failure. -/
theorem c6_amended_witness :
    cbHalfOpenFailed.currentState = State.stateHalfOpen ∧
    cbHalfOpenFailed.counters.Failure > 0 ∧
    ((updateState 9 cbHalfOpenFailed).counters = ⟨0, 0, 0, 0⟩ ∧
     (updateState 9 cbHalfOpenFailed).currentTime = 9 ∧
     (updateState 9 cbHalfOpenFailed).currentState
       = (if cbHalfOpenFailed.untripCircuit ⟨0, 0, 0, 0⟩ then State.stateClose
          else State.stateOpen)) :=
  ⟨rfl, by decide, c6_amended cbHalfOpenFailed 9 rfl (by decide)⟩

/-- C7: in the Closed state with running counters `c2`, `updateState`
(run after every recorded outcome) moves the breaker to Open exactly
when the trip predicate is true on the running counters — so over any
sequence of outcomes the transition happens at the first outcome whose
counters satisfy the predicate — and at that instant the counters are
reset to zero, while a false predicate leaves the breaker completely
unchanged; and the default trip predicate is true exactly when at least
one outcome has been recorded and failure/(failure+success) ≥ 0.5. -/
theorem c7_closed_trip_exact (cb : CircuitBreaker) (now : Nat) (c2 : CircuitCounters)
    (hs : cb.currentState = State.stateClose) :
    ((updateState now { cb with counters := c2 }).currentState = State.stateOpen
        ↔ cb.tripCircuit c2 = true) ∧
    (cb.tripCircuit c2 = true →
        (updateState now { cb with counters := c2 }).counters = ⟨0, 0, 0, 0⟩) ∧
    (cb.tripCircuit c2 = false →
        updateState now { cb with counters := c2 } = { cb with counters := c2 }) ∧
    (defaultTripCircuit c2 = true ↔
      0 < c2.Failure + c2.Success ∧
        ((c2.Failure : ℚ) / ((c2.Failure : ℚ) + (c2.Success : ℚ)) ≥ 1/2)) := by
  have hdt : defaultTripCircuit c2 = true ↔
      0 < c2.Failure + c2.Success ∧
        ((c2.Failure : ℚ) / ((c2.Failure : ℚ) + (c2.Success : ℚ)) ≥ 1/2) := by
    rw [defaultTripCircuit_iff]
    constructor
    · intro ⟨h1, h2⟩
      exact ⟨h1, (ratio_ge_half_iff _ _ h1).mpr h2⟩
    · intro ⟨h1, h2⟩
      exact ⟨h1, (ratio_ge_half_iff _ _ h1).mp h2⟩
  rcases htr : cb.tripCircuit c2 with _ | _
  · refine ⟨?_, ?_, ?_, hdt⟩
    · simp [updateState, hs, htr]
    · intro hcon
      simp at hcon
    · intro _
      simp [updateState, hs, htr]
  · refine ⟨?_, ?_, ?_, hdt⟩
    · simp [updateState, hs, htr, ResetCounters]
    · intro _
      simp [updateState, hs, htr, ResetCounters]
    · intro hcon
      simp at hcon

/-- Witness for `c7_closed_trip_exact` at the default breaker with
running counters one failure, one success (ratio 1/2, which trips). -/
theorem c7_witness :
    (NewDefaultCircuitBreaker 0).currentState = State.stateClose ∧
    (((updateState 3 { NewDefaultCircuitBreaker 0 with
          counters := (⟨1, 1, 0, 0⟩ : CircuitCounters) }).currentState = State.stateOpen
        ↔ (NewDefaultCircuitBreaker 0).tripCircuit ⟨1, 1, 0, 0⟩ = true) ∧
     ((NewDefaultCircuitBreaker 0).tripCircuit ⟨1, 1, 0, 0⟩ = true →
        (updateState 3 { NewDefaultCircuitBreaker 0 with
          counters := (⟨1, 1, 0, 0⟩ : CircuitCounters) }).counters = ⟨0, 0, 0, 0⟩) ∧
     ((NewDefaultCircuitBreaker 0).tripCircuit ⟨1, 1, 0, 0⟩ = false →
        updateState 3 { NewDefaultCircuitBreaker 0 with
          counters := (⟨1, 1, 0, 0⟩ : CircuitCounters) }
          = { NewDefaultCircuitBreaker 0 with counters := (⟨1, 1, 0, 0⟩ : CircuitCounters) }) ∧
     (defaultTripCircuit ⟨1, 1, 0, 0⟩ = true ↔
       0 < (1 : Nat) + 1 ∧ (((1 : Nat) : ℚ) / (((1 : Nat) : ℚ) + ((1 : Nat) : ℚ)) ≥ 1/2))) :=
  ⟨rfl, c7_closed_trip_exact (NewDefaultCircuitBreaker 0) 3 ⟨1, 1, 0, 0⟩ rfl⟩

/-- C8: whenever `updateState` changes the state — this covers all four
transitions Closed to Open, Open to HalfOpen, HalfOpen to Open and
HalfOpen to Closed, which are the only state changes in the package —
the resulting counters are all zero: every transition resets all four
counters in the same step, so each transition decision sees only
counters accumulated since the previous transition. -/
theorem c8_transition_resets_counters (cb : CircuitBreaker) (now : Nat)
    (h : (updateState now cb).currentState ≠ cb.currentState) :
    (updateState now cb).counters = ⟨0, 0, 0, 0⟩ := by
  rcases hcs : cb.currentState with _ | _ | _
  · simp only [updateState, hcs] at h ⊢
    by_cases htr : cb.tripCircuit cb.counters
    · simp [htr, ResetCounters]
    · simp [htr, hcs] at h
  · simp only [updateState, hcs] at h ⊢
    by_cases htm : cb.currentTime + cb.openTime < now
    · simp [htm, ResetCounters]
    · simp [htm, hcs] at h
  · simp only [updateState, hcs] at h ⊢
    by_cases hf : cb.counters.Failure > 0
    · by_cases hu : cb.untripCircuit (⟨0, 0, 0, 0⟩ : CircuitCounters)
      · simp [hf, hu, ResetCounters]
      · simp [hf, hu, ResetCounters]
    · by_cases hu : cb.untripCircuit cb.counters
      · simp [hf, hu, ResetCounters]
      · simp [hf, hu, hcs] at h

/-- Witness for `c8_transition_resets_counters` at the always-trip
custom breaker, which transitions Closed to Open at its next update. -/
theorem c8_witness :
    (updateState 7 cbGreedy).currentState ≠ cbGreedy.currentState ∧
    (updateState 7 cbGreedy).counters = ⟨0, 0, 0, 0⟩ :=
  ⟨by decide, c8_transition_resets_counters cbGreedy 7 (by decide)⟩

/-- C9: on an admitted call (Closed breaker whose trip predicate stays
false), a non-nil error from the wrapped function is recorded as a
failure and the pair `(req, err)` is returned with the error object
unmodified, the breaker differing only in its Failure counter, which is
incremented by exactly one; symmetrically a nil-error return increments
exactly the Success counter; and a rejected call (Open breaker within
cooldown) mutates no counter at all. -/
theorem c9_failure_recorded_error_verbatim {α ε : Type} (cb : CircuitBreaker)
    (now : Nat) (a : α) (e : ε)
    (cbO : CircuitBreaker) (nowO : Nat) (request : CallResult α ε)
    (hs : cb.currentState = State.stateClose)
    (h0 : cb.tripCircuit cb.counters = false)
    (hf : cb.tripCircuit ⟨cb.counters.Failure + 1, cb.counters.Success,
        cb.counters.Timeout, cb.counters.Rejection⟩ = false)
    (hsu : cb.tripCircuit ⟨cb.counters.Failure, cb.counters.Success + 1,
        cb.counters.Timeout, cb.counters.Rejection⟩ = false)
    (hOs : cbO.currentState = State.stateOpen)
    (hOt : nowO < cbO.currentTime + cbO.openTime) :
    Spark now cb (CallResult.ret a (some e))
      = (SparkResult.returned a (some e),
         { cb with counters := ⟨cb.counters.Failure + 1, cb.counters.Success,
             cb.counters.Timeout, cb.counters.Rejection⟩ }) ∧
    Spark now cb (CallResult.ret (ε := ε) a none)
      = (SparkResult.returned (ε := ε) a none,
         { cb with counters := ⟨cb.counters.Failure, cb.counters.Success + 1,
             cb.counters.Timeout, cb.counters.Rejection⟩ }) ∧
    (Spark nowO cbO request).2.counters = cbO.counters := by
  have hnotO : ¬ (cbO.currentTime + cbO.openTime < nowO) := by omega
  have hupO : updateState nowO cbO = cbO := by
    simp only [updateState, hOs, if_neg hnotO]
  refine ⟨?_, ?_, ?_⟩
  · simp [Spark, isOpen, onFail, updateState, hs, h0, hf]
  · simp [Spark, isOpen, onSuccess, updateState, hs, h0, hsu]
  · simp [Spark, isOpen, hupO, hOs]

/-- Witness for `c9_failure_recorded_error_verbatim` at the default
breaker with three recorded successes (no trip on either outcome) and
the concrete Open default breaker within cooldown. -/
theorem c9_witness :
    cbSuccessThree.currentState = State.stateClose ∧
    cbSuccessThree.tripCircuit cbSuccessThree.counters = false ∧
    cbSuccessThree.tripCircuit ⟨cbSuccessThree.counters.Failure + 1,
      cbSuccessThree.counters.Success, cbSuccessThree.counters.Timeout,
      cbSuccessThree.counters.Rejection⟩ = false ∧
    cbSuccessThree.tripCircuit ⟨cbSuccessThree.counters.Failure,
      cbSuccessThree.counters.Success + 1, cbSuccessThree.counters.Timeout,
      cbSuccessThree.counters.Rejection⟩ = false ∧
    cbOpenDefault.currentState = State.stateOpen ∧
    (0 : Nat) < cbOpenDefault.currentTime + cbOpenDefault.openTime ∧
    (Spark 4 cbSuccessThree (CallResult.ret () (some "err"))
      = (SparkResult.returned () (some "err"),
         { cbSuccessThree with counters := ⟨cbSuccessThree.counters.Failure + 1,
             cbSuccessThree.counters.Success, cbSuccessThree.counters.Timeout,
             cbSuccessThree.counters.Rejection⟩ }) ∧
     Spark 4 cbSuccessThree (CallResult.ret (ε := String) () none)
      = (SparkResult.returned (ε := String) () none,
         { cbSuccessThree with counters := ⟨cbSuccessThree.counters.Failure,
             cbSuccessThree.counters.Success + 1, cbSuccessThree.counters.Timeout,
             cbSuccessThree.counters.Rejection⟩ }) ∧
     (Spark 0 cbOpenDefault (CallResult.ret (ε := String) () none)).2.counters
       = cbOpenDefault.counters) :=
  ⟨rfl,
   by simp [cbSuccessThree, NewDefaultCircuitBreaker, defaultTripCircuit_eq_decide],
   by simp [cbSuccessThree, NewDefaultCircuitBreaker, defaultTripCircuit_eq_decide],
   by simp [cbSuccessThree, NewDefaultCircuitBreaker, defaultTripCircuit_eq_decide],
   rfl, by decide,
   c9_failure_recorded_error_verbatim cbSuccessThree 4 () "err" cbOpenDefault 0
     (CallResult.ret (ε := String) () none)
     rfl
     (by simp [cbSuccessThree, NewDefaultCircuitBreaker, defaultTripCircuit_eq_decide])
     (by simp [cbSuccessThree, NewDefaultCircuitBreaker, defaultTripCircuit_eq_decide])
     (by simp [cbSuccessThree, NewDefaultCircuitBreaker, defaultTripCircuit_eq_decide])
     rfl (by decide)⟩

/-- C10: for every breaker built by either constructor and every
sequence of `Spark` calls and manual `ResetCounters` calls, the Timeout
and Rejection counters remain zero — no operation of the package ever
increments them. -/
theorem c10_timeout_rejection_never_incremented {α ε : Type}
    (ops opsB : List (SparkOp α ε)) (circuitName : String)
    (tripFunc untripFunc : CircuitCounters → Bool) (openT now0 now1 : Nat) :
    ((runOps (NewDefaultCircuitBreaker now0) ops).counters.Timeout = 0 ∧
     (runOps (NewDefaultCircuitBreaker now0) ops).counters.Rejection = 0) ∧
    ((runOps (NewCircuitBreaker circuitName tripFunc untripFunc openT now1)
        opsB).counters.Timeout = 0 ∧
     (runOps (NewCircuitBreaker circuitName tripFunc untripFunc openT now1)
        opsB).counters.Rejection = 0) := by
  constructor
  · exact runOps_tr ops _ (by simp [NewDefaultCircuitBreaker])
  · exact runOps_tr opsB _ (by simp [NewCircuitBreaker])

end Circuitbreaker
